import Mathlib

/-!
Shallow embedding of the `lpio-client-js` long-polling client.

The repository has two variants of the controller:
* `src/unnamed/part_000` — the canonical variant (guarded emit, `success` /
  `set:id` events, `reopening` guard, 401 handling);
* `src/src/Client.js` — the legacy variant (user-type validation, ping).

The definitions below are translated line-by-line from those two files.
External capabilities (Backoff, the RequestChannel close discipline) are
not in the repository; where the spec describes them they are modelled from
the spec and marked as such in their doc comments.
-/

namespace Lpio

/-- JS truthiness of an optional string field: an absent field and the empty
string are falsy, every other string truthy. -/
def truthy : Option String → Bool
  | none => false
  | some s => s ≠ ""

/-- A wire/queue message, as the client constructs and routes it.
Fields the core inspects: `id`, `type`, `data`; addressing fields are
carried opaquely. An `Option` field models presence of the JS property. -/
structure Message where
  id : String
  type : String
  data : Option String := none
  sender : Option String := none
  recipient : Option String := none
  client : Option String := none
  deriving Repr, DecidableEq

/-- The argument object of `send(options, callback)`. Every field optional,
mirroring a plain JS object literal; `none` = property absent. -/
structure SendOptions where
  id : Option String := none
  type : Option String := none
  data : Option String := none
  sender : Option String := none
  recipient : Option String := none
  client : Option String := none
  deriving Repr, DecidableEq

/-- Backoff. Modelled from the spec: the `backo` package is an external
capability ("stateful generator of increasing retry delays with a configured
maximum and an attempt counter; resettable", spec §2; "a schedule of
increasing retry delays after consecutive failures, with a ceiling and a
reset-on-success rule", glossary). `ms` is the initial delay, `factor` the
growth factor, `maxMs` the ceiling, `attempts` the consecutive-failure
counter. -/
structure BackoffState where
  ms : Nat
  factor : Nat
  maxMs : Nat
  attempts : Nat
  deriving Repr, DecidableEq

/-- The delay `duration()` would return in the current state:
`min (ms * factor ^ attempts) maxMs`. -/
def BackoffState.durationVal (b : BackoffState) : Nat :=
  min (b.ms * b.factor ^ b.attempts) b.maxMs

/-- `duration()`: returns the current delay and increments the attempt
counter. -/
def BackoffState.duration (b : BackoffState) : Nat × BackoffState :=
  (b.durationVal, { b with attempts := b.attempts + 1 })

/-- `reset()`: clears the consecutive-failure streak. -/
def BackoffState.reset (b : BackoffState) : BackoffState :=
  { b with attempts := 0 }

/-!
## AckWaiter (`subscribeAck`, part_000 lines 99–112)

`subscribeAck(message, callback)` registers a one-shot listener
`in.once('ack:<id>', onAck)` and arms a timer. `onAck` clears the timer and
invokes `callback()`; the timer callback removes the listener and invokes
`callback(new Error('Delivery timeout.'))`. We model the waiter's life as a
two-flag state: whether the one-shot ack listener is still registered and
whether the timer is still armed.
-/

/-- An occurrence that can reach a registered AckWaiter: a matching inbound
ack is routed to it, or its timeout timer fires. -/
inductive AckEvt where
  | ack
  | timeout
  deriving Repr, DecidableEq

/-- Which callback invocation happened: `delivered` is `callback()` from
`onAck`, `timedOut` is `callback(new Error('Delivery timeout.'))`. -/
inductive AckOutcome where
  | delivered
  | timedOut
  deriving Repr, DecidableEq

/-- State of one AckWaiter: `listener` = the `in.once('ack:<id>')`
registration is still present, `timer` = the `setTimeout` is still armed. -/
structure WaiterState where
  listener : Bool
  timer : Bool
  deriving Repr, DecidableEq

/-- A freshly registered waiter: listener registered, timer armed
(part_000 lines 106–107). -/
def WaiterState.fresh : WaiterState := ⟨true, true⟩

/-- One occurrence hitting the waiter, from part_000 lines 99–112.
An inbound ack reaches `onAck` only while the one-shot listener is
registered (`once` removes it when it fires); `onAck` clears the timer and
invokes the callback with no error. The timer callback runs only while the
timer is armed (`clearTimeout` in `onAck` cancels it); it removes the
listener and invokes the callback with the delivery-timeout error. -/
def waiterStep : WaiterState → AckEvt → WaiterState × List AckOutcome
  | s, .ack =>
    if s.listener then (⟨false, false⟩, [.delivered]) else (s, [])
  | s, .timeout =>
    if s.timer then (⟨false, false⟩, [.timedOut]) else (s, [])

/-- Run a waiter through a sequence of occurrences, collecting every
callback invocation in order. -/
def waiterRun (s : WaiterState) : List AckEvt → WaiterState × List AckOutcome
  | [] => (s, [])
  | e :: es =>
    let (s1, out1) := waiterStep s e
    let (s2, out2) := waiterRun s1 es
    (s2, out1 ++ out2)

/-- The outcome the first occurrence produces on a fresh waiter. -/
def ackOutcomeOf : AckEvt → AckOutcome
  | .ack => .delivered
  | .timeout => .timedOut

/-!
## The canonical controller (`src/unnamed/part_000`)

State fields mirror the instance fields of the `Client` class; `inflight`
counts the RequestChannels currently open (a ghost observation of the
transport), `reopenTimers` lists the delays of the reopen timers currently
scheduled by `setTimeout` in `reopen()`, and `events` is the emission trace
(oldest first). `asyncCallbacks` is not tracked here: `send`'s validation
callbacks are returned directly by `send`, and ack waiters are modelled by
`waiterStep` above.
-/

/-- A name of an emitted event. `ackIn id` is `this.in.emit('ack:<id>')`;
all others go to the `out` bus. -/
inductive EvtName where
  | connected
  | disconnected
  | error
  | unauthorized
  | success
  | setId
  | message
  | data
  | ackIn (id : String)
  deriving Repr, DecidableEq

/-- The mutable state of one `Client` (part_000), plus the ghost
observations `inflight` and `reopenTimers` of the host environment. -/
structure ClientState where
  sessionId : Option String
  connected : Bool
  disabled : Bool
  loading : Bool
  reopening : Bool
  request : Option Nat
  nextReq : Nat
  inflight : Nat
  pending : List Message
  mux : List Message
  muxRunning : Bool
  reopenTimers : List Nat
  backoff : BackoffState
  events : List EvtName
  deriving Repr, DecidableEq

/-- Deliver one event to the `out` bus: it is appended to the trace. -/
def emitE (s : ClientState) (e : EvtName) : ClientState :=
  { s with events := s.events ++ [e] }

/-- `multiplexer.add`: append to the pending-outbound queue. -/
def muxAdd (s : ClientState) (ms : List Message) : ClientState :=
  { s with mux := s.mux ++ ms }

/-- `onDisconnected` (part_000 lines 184–193): no-op unless connected;
otherwise stop the multiplexer, clear the session id, clear `connected`
and emit `disconnected`. -/
def onDisconnected (s : ClientState) : ClientState :=
  if !s.connected then s
  else
    emitE { s with muxRunning := false, sessionId := none, connected := false }
      EvtName.disconnected

/-- `onConnected` (part_000 lines 200–205): no-op when already connected or
when no session id is held; otherwise set `connected` and emit
`connected`. -/
def onConnected (s : ClientState) : ClientState :=
  if s.connected || !(truthy s.sessionId) then s
  else emitE { s with connected := true } EvtName.connected

/-- `onRequestClose` (part_000 lines 212–215): the request handle is
dropped and `loading` cleared; the channel it referred to is now closed
(ghost `inflight` decremented). -/
def onRequestClose (s : ClientState) : ClientState :=
  { s with request := none, loading := false, inflight := s.inflight - 1 }

/-- `if (this.request) this.request.close()`. Modelled from the spec: the
RequestChannel is an external capability that "can be aborted" (§2) and
"On RequestChannel close (success or failure), `loading` is cleared" (§4.1)
— aborting closes the channel, which invokes `onRequestClose`. -/
def abortRequest (s : ClientState) : ClientState :=
  if s.request.isSome then onRequestClose s else s

/-- `disconnect()` (part_000 lines 52–57): set `disabled`, abort any
in-flight request, then `onDisconnected`. -/
def disconnect (s : ClientState) : ClientState :=
  onDisconnected (abortRequest { s with disabled := true })

/-- `open(messages = [])` (part_000 lines 119–142): if disabled or already
loading, push the messages back into the Multiplexer and do nothing else;
otherwise set `loading` and issue exactly one RequestChannel carrying the
batch (the batch is also captured by the request's error closure:
`pending`). -/
def openReq (s : ClientState) (messages : List Message) : ClientState :=
  if s.disabled || s.loading then muxAdd s messages
  else
    { s with loading := true, request := some s.nextReq, nextReq := s.nextReq + 1,
             inflight := s.inflight + 1, pending := messages }

/-- `reopen()` (part_000 lines 149–161): no-op when a reopen is already
pending; otherwise draw the next delay from Backoff (incrementing its
attempt counter), set `reopening`, stop the Multiplexer, treat the session
as disconnected when the delay has reached the ceiling, and schedule a
reopen timer with that delay. -/
def reopen (s : ClientState) : ClientState :=
  if s.reopening then s
  else
    let d := s.backoff.durationVal
    let s1 := { s with backoff := (s.backoff.duration).2, reopening := true,
                       muxRunning := false, reopenTimers := s.reopenTimers ++ [d] }
    if d ≥ s1.backoff.maxMs then onDisconnected s1 else s1

/-- The body of the timer scheduled by `reopen` (part_000 lines 156–160):
clear `reopening` and call `open()` with no messages. -/
def reopenFire (s : ClientState) : ClientState :=
  openReq { s with reopening := false, reopenTimers := s.reopenTimers.tail } []

/-- `onUnauthorized` (part_000 lines 273–276): emit `unauthorized`, then
`disconnect()`. -/
def onUnauthorized (s : ClientState) : ClientState :=
  disconnect (emitE s EvtName.unauthorized)

/-- `onRequestError` (part_000 lines 261–266): emit `error`; a 401 status
is terminal (`onUnauthorized`), anything else enters `reopen()`. -/
def onRequestError (s : ClientState) (status : Option Nat) : ClientState :=
  let s1 := emitE s EvtName.error
  if status = some 401 then onUnauthorized s1 else reopen s1

/-- The synthetic confirmation part_000 (lines 299–302) enqueues for a
non-ack inbound message: `{type: 'ack', id: message.id}`. -/
def ackReply (id : String) : Message :=
  { id := id, type := "ack" }

/-- `onMessage` (part_000 lines 283–303): emit `message`; an inbound `ack`
is routed to the `in` bus and produces no reply; a `data` message with a
truthy payload additionally emits `data`; every non-ack message gets a
synthetic ack enqueued into the Multiplexer. -/
def onMessage (s : ClientState) (m : Message) : ClientState :=
  let s1 := emitE s EvtName.message
  if m.type = "ack" then emitE s1 (EvtName.ackIn m.id)
  else
    let s2 :=
      if m.type = "data" then
        (if truthy m.data then emitE s1 EvtName.data else s1)
      else s1
    muxAdd s2 [ackReply m.id]

/-- A successful response body: `res.set.id` (when the server assigns a
session id) and the inbound message batch. -/
structure Response where
  setId : Option String := none
  messages : List Message := []
  deriving Repr, DecidableEq

/-- The first phase of `onRequestSuccess` (part_000 lines 223–239): emit
`success`, reset Backoff, adopt an assigned session id when the response
carries one (emitting `connected` via `onConnected` before `set:id`), and
run `onConnected` in any case. -/
def successPre (s : ClientState) (res : Response) : ClientState :=
  let s1 := emitE s EvtName.success
  let s2 := { s1 with backoff := s1.backoff.reset }
  let s3 :=
    if truthy res.setId then
      emitE (onConnected { s2 with sessionId := res.setId }) EvtName.setId
    else s2
  onConnected s3

/-- `onRequestSuccess` (part_000 lines 222–254): the adoption phase
(`successPre`), then route every inbound message in array order, snapshot
and clear the Multiplexer, restart it and immediately open the next cycle
with the snapshot. -/
def onRequestSuccess (s : ClientState) (res : Response) : ClientState :=
  let s4 := successPre s res
  let s5 := res.messages.foldl onMessage s4
  let msgs := s5.mux
  let s6 := { s5 with mux := [], muxRunning := true }
  openReq s6 msgs

/-- `connect()` (part_000 lines 39–45): no-op when connected or loading;
otherwise clear `disabled` and open the first cycle. -/
def connect (s : ClientState) : ClientState :=
  if s.connected || s.loading then s
  else openReq { s with disabled := false } []

/-- `onDrain` (part_000 lines 310–313): abort any in-flight request and
open a fresh cycle immediately with the drained batch. -/
def onDrain (s : ClientState) (messages : List Message) : ClientState :=
  openReq (abortRequest s) messages

/-- The type `options.type` is defaulted to before validation:
`if (!options.type) options.type = 'data'` (part_000 line 65). -/
def defaultedType (opts : SendOptions) : String :=
  match opts.type with
  | some t => if t = "" then "data" else t
  | none => "data"

/-- The validation of `send` (part_000 lines 67–74): a message whose
(defaulted) type is `data` must carry a truthy `data` property. -/
def sendValidationError (opts : SendOptions) : Option String :=
  if defaultedType opts = "data" ∧ ¬ truthy opts.data = true then
    some "Undefined property \"data\""
  else none

/-- The message literal `{id: String(uid()), ...options}` (part_000
lines 76–79): the spread copies every property present in `options` after
the generated id, so a caller-supplied `id` overwrites the fresh one;
`options.type` was already defaulted by mutation. -/
def mkMessage (uidStr : String) (opts : SendOptions) : Message :=
  { id := (opts.id).getD uidStr
    type := defaultedType opts
    data := opts.data
    sender := opts.sender
    recipient := opts.recipient
    client := opts.client }

/-- `send(options, callback)` (part_000 lines 64–92): validate; on failure
schedule the callback (when given) asynchronously with the validation
error and enqueue nothing; on success stamp the message and enqueue it.
Returns the new state and the scheduled validation-callback errors. The
ack subscription is modelled by `waiterStep`. -/
def send (uidStr : String) (s : ClientState) (opts : SendOptions)
    (hasCallback : Bool) : ClientState × List String :=
  match sendValidationError opts with
  | some e => (s, if hasCallback then [e] else [])
  | none => (muxAdd s [mkMessage uidStr opts], [])

/-- An external occurrence driving the controller. Response events
(`success` / `failure`) exist only for an in-flight request. Modelled from
the spec for the transport's close discipline: "On RequestChannel close
(success or failure), `loading` is cleared" (§4.1) — the channel closes
(invoking `onRequestClose`) and then the success or error callback runs;
the error closure first re-adds the captured batch (part_000
lines 134–138). -/
inductive ClientEvt where
  | connect
  | disconnect
  | send (uidStr : String) (opts : SendOptions) (hasCallback : Bool)
  | drain (messages : List Message)
  | success (res : Response)
  | failure (status : Option Nat)
  | reopenFire
  deriving Repr

/-- One occurrence applied to the controller state. -/
def step (s : ClientState) : ClientEvt → ClientState
  | .connect => connect s
  | .disconnect => disconnect s
  | .send uidStr opts cb => (send uidStr s opts cb).1
  | .drain msgs => onDrain s msgs
  | .success res =>
    match s.request with
    | some _ => onRequestSuccess (onRequestClose s) res
    | none => s
  | .failure status =>
    match s.request with
    | some _ => onRequestError (muxAdd (onRequestClose s) s.pending) status
    | none => s
  | .reopenFire =>
    if s.reopenTimers = [] then s else reopenFire s

/-- The state of a freshly constructed `Client` (part_000 lines 22–32):
disabled, not connected, nothing in flight, empty queue, Backoff at zero
attempts. -/
def initState (optId : Option String) (b : BackoffState) : ClientState :=
  { sessionId := optId, connected := false, disabled := true, loading := false,
    reopening := false, request := none, nextReq := 0, inflight := 0,
    pending := [], mux := [], muxRunning := true, reopenTimers := [],
    backoff := { b with attempts := 0 }, events := [] }

/-- Run the controller from a state through a sequence of occurrences. -/
def run (s : ClientState) (es : List ClientEvt) : ClientState :=
  es.foldl step s

/-!
## The guarded emit (`part_000` lines 170–177) under throwing handlers

`emit` wraps `out.emit` in try/catch and, on a caught exception, calls
`out.emit('error', err)` — that second call is not itself wrapped, so an
exception thrown by an `error` handler escapes the guard.
-/

/-- Which installed application handlers throw when invoked. -/
def HandlerEnv : Type := EvtName → Bool

/-- The guarded `emit` (part_000 lines 170–177). Returns the events
delivered to handlers (the event itself, plus `error` when a handler threw
and the exception was re-raised), or `Except.error` when an exception
escapes the emission (only possible when the `error` handler itself
throws). -/
def emitG (env : HandlerEnv) (e : EvtName) : Except Unit (List EvtName) :=
  if env e then
    (if env EvtName.error then Except.error () else Except.ok [e, EvtName.error])
  else Except.ok [e]

/-- `onMessage` (part_000 lines 283–303) with the guarded emit explicit:
returns the updated Multiplexer queue and the delivered events, or
propagates a handler exception that escaped the guard — which aborts the
rest of the routine, including the ack enqueue. -/
def onMessageG (env : HandlerEnv) (mux : List Message) (m : Message) :
    Except Unit (List Message × List EvtName) :=
  match emitG env EvtName.message with
  | .error u => .error u
  | .ok t1 =>
    if m.type = "ack" then .ok (mux, t1 ++ [EvtName.ackIn m.id])
    else
      let dataEmit : Except Unit (List EvtName) :=
        if m.type = "data" then
          (if truthy m.data then emitG env EvtName.data else .ok [])
        else .ok []
      match dataEmit with
      | .error u => .error u
      | .ok t2 => .ok (mux ++ [ackReply m.id], t1 ++ t2)

/-!
## The legacy controller's `send` (`src/src/Client.js` lines 57–88)

Validation runs only when `options.type === 'user'` — checked before the
message literal defaults the type to `'user'` — and requires truthy `data`
and `recipient` (the recipient error overwrites the data error). The
callback defaults to a no-op and is always scheduled with the error on
failure.
-/

/-- The legacy `send`: given the generated uid, the configured client id
and user, the current Multiplexer queue and the call's options, returns
the new queue and the asynchronously scheduled validation-error
callbacks. -/
def legacySend (uidStr : String) (clientId user : Option String)
    (mux : List Message) (opts : SendOptions) : List Message × List String :=
  let err : Option String :=
    if opts.type = some "user" then
      if ¬ truthy opts.recipient = true then some "Recipient is undefined."
      else if ¬ truthy opts.data = true then some "Data is undefined."
      else none
    else none
  match err with
  | some e => (mux, [e])
  | none =>
    let message : Message :=
      { id := (opts.id).getD uidStr
        type := (opts.type).getD "user"
        data := opts.data
        sender := match opts.sender with | some x => some x | none => user
        recipient := opts.recipient
        client := match opts.client with | some x => some x | none => clientId }
    (mux ++ [message], [])

/-- The channel-accounting invariant of the controller: the number of open
RequestChannels agrees with the stored request handle, and `loading` holds
exactly while a request is in flight. -/
def ChannelInv (s : ClientState) : Prop :=
  s.inflight = (if s.request.isSome then 1 else 0) ∧ s.loading = s.request.isSome

/-- A sample Backoff configuration for concrete instantiations. -/
def sampleBackoff : BackoffState :=
  { ms := 100, factor := 2, maxMs := 10000, attempts := 0 }

/-- A freshly constructed client with no pre-assigned session id. -/
def sampleState : ClientState :=
  initState none sampleBackoff

/-- A client that has connected: session id held, a request in flight. -/
def connectedState : ClientState :=
  { sampleState with disabled := false, connected := true,
                     sessionId := some "X", loading := true,
                     request := some 0, nextReq := 1, inflight := 1 }

/-!
# Theorems
-/

theorem waiterStep_dead (e : AckEvt) :
    waiterStep ⟨false, false⟩ e = (⟨false, false⟩, []) := by
  cases e <;> rfl

theorem waiterRun_dead (es : List AckEvt) :
    waiterRun ⟨false, false⟩ es = (⟨false, false⟩, []) := by
  induction es with
  | nil => rfl
  | cons e es ih =>
    simp [waiterRun, waiterStep_dead, ih]

/-!
## Frame lemmas: which fields each operation leaves untouched
-/

theorem onConnected_frame (s : ClientState) :
    (onConnected s).backoff = s.backoff ∧ (onConnected s).mux = s.mux ∧
    (onConnected s).request = s.request ∧ (onConnected s).loading = s.loading ∧
    (onConnected s).inflight = s.inflight ∧ (onConnected s).disabled = s.disabled ∧
    (onConnected s).reopening = s.reopening ∧
    (onConnected s).reopenTimers = s.reopenTimers ∧
    (onConnected s).sessionId = s.sessionId := by
  unfold onConnected emitE
  split <;> simp

theorem openReq_frame (s : ClientState) (msgs : List Message) :
    (openReq s msgs).events = s.events ∧ (openReq s msgs).connected = s.connected ∧
    (openReq s msgs).sessionId = s.sessionId ∧ (openReq s msgs).backoff = s.backoff ∧
    (openReq s msgs).reopening = s.reopening ∧
    (openReq s msgs).reopenTimers = s.reopenTimers ∧
    (openReq s msgs).disabled = s.disabled := by
  unfold openReq muxAdd
  split <;> simp

theorem onMessage_frame (s : ClientState) (m : Message) :
    (onMessage s m).connected = s.connected ∧
    (onMessage s m).sessionId = s.sessionId ∧
    (onMessage s m).backoff = s.backoff ∧
    (onMessage s m).request = s.request ∧
    (onMessage s m).loading = s.loading ∧
    (onMessage s m).inflight = s.inflight ∧
    (onMessage s m).disabled = s.disabled ∧
    (onMessage s m).reopening = s.reopening ∧
    (onMessage s m).reopenTimers = s.reopenTimers := by
  unfold onMessage emitE muxAdd
  split_ifs <;> simp

theorem onMessage_events (s : ClientState) (m : Message) :
    ∃ t, (onMessage s m).events = s.events ++ t ∧ EvtName.connected ∉ t := by
  unfold onMessage emitE muxAdd
  split_ifs
  · exact ⟨[EvtName.message, EvtName.ackIn m.id], by simp, by simp⟩
  · exact ⟨[EvtName.message, EvtName.data], by simp, by simp⟩
  · exact ⟨[EvtName.message], by simp, by simp⟩
  · exact ⟨[EvtName.message], by simp, by simp⟩

theorem foldl_onMessage_frame (l : List Message) (s : ClientState) :
    ((l.foldl onMessage s).connected = s.connected ∧
     (l.foldl onMessage s).sessionId = s.sessionId ∧
     (l.foldl onMessage s).backoff = s.backoff ∧
     (l.foldl onMessage s).request = s.request ∧
     (l.foldl onMessage s).loading = s.loading ∧
     (l.foldl onMessage s).inflight = s.inflight ∧
     (l.foldl onMessage s).disabled = s.disabled ∧
     (l.foldl onMessage s).reopening = s.reopening ∧
     (l.foldl onMessage s).reopenTimers = s.reopenTimers) ∧
    ∃ t, (l.foldl onMessage s).events = s.events ++ t ∧ EvtName.connected ∉ t := by
  induction l generalizing s with
  | nil => exact ⟨⟨rfl, rfl, rfl, rfl, rfl, rfl, rfl, rfl, rfl⟩, [], by simp, by simp⟩
  | cons m l ih =>
    obtain ⟨f1, f2, f3, f4, f5, f6, f7, f8, f9⟩ := onMessage_frame s m
    obtain ⟨t1, ht1, hn1⟩ := onMessage_events s m
    obtain ⟨⟨g1, g2, g3, g4, g5, g6, g7, g8, g9⟩, t2, ht2, hn2⟩ := ih (onMessage s m)
    refine ⟨⟨?_, ?_, ?_, ?_, ?_, ?_, ?_, ?_, ?_⟩, t1 ++ t2, ?_, ?_⟩
    · rw [List.foldl_cons, g1, f1]
    · rw [List.foldl_cons, g2, f2]
    · rw [List.foldl_cons, g3, f3]
    · rw [List.foldl_cons, g4, f4]
    · rw [List.foldl_cons, g5, f5]
    · rw [List.foldl_cons, g6, f6]
    · rw [List.foldl_cons, g7, f7]
    · rw [List.foldl_cons, g8, f8]
    · rw [List.foldl_cons, g9, f9]
    · rw [List.foldl_cons, ht2, ht1, List.append_assoc]
    · simp only [List.mem_append]
      rintro (h | h)
      · exact hn1 h
      · exact hn2 h

/-!
## Preservation of the channel-accounting invariant
-/

theorem channelInv_emitE {s : ClientState} (h : ChannelInv s) (e : EvtName) :
    ChannelInv (emitE s e) := by
  simpa [ChannelInv, emitE] using h

theorem channelInv_muxAdd {s : ClientState} (h : ChannelInv s) (ms : List Message) :
    ChannelInv (muxAdd s ms) := by
  simpa [ChannelInv, muxAdd] using h

theorem channelInv_onDisconnected {s : ClientState} (h : ChannelInv s) :
    ChannelInv (onDisconnected s) := by
  unfold onDisconnected emitE
  split
  · exact h
  · simpa [ChannelInv] using h

theorem channelInv_onConnected {s : ClientState} (h : ChannelInv s) :
    ChannelInv (onConnected s) := by
  unfold onConnected emitE
  split
  · exact h
  · simpa [ChannelInv] using h

theorem channelInv_onRequestClose {s : ClientState} (h : ChannelInv s) :
    ChannelInv (onRequestClose s) := by
  obtain ⟨h1, h2⟩ := h
  cases hr : s.request <;> rw [hr] at h1 <;>
    simp_all [ChannelInv, onRequestClose]

theorem channelInv_abortRequest {s : ClientState} (h : ChannelInv s) :
    ChannelInv (abortRequest s) := by
  unfold abortRequest
  split
  · exact channelInv_onRequestClose h
  · exact h

theorem channelInv_disconnect {s : ClientState} (h : ChannelInv s) :
    ChannelInv (disconnect s) := by
  refine channelInv_onDisconnected (channelInv_abortRequest ?_)
  simpa [ChannelInv] using h

theorem channelInv_openReq {s : ClientState} (h : ChannelInv s) (msgs : List Message) :
    ChannelInv (openReq s msgs) := by
  obtain ⟨h1, h2⟩ := h
  unfold openReq muxAdd
  by_cases hb : (s.disabled || s.loading) = true
  · simp only [hb, if_true]
    exact ⟨h1, h2⟩
  · have hl : s.loading = false := by
      cases hl : s.loading
      · rfl
      · simp [hl] at hb
    have hr : s.request = none := by
      cases hr : s.request
      · rfl
      · rw [hl, hr] at h2; simp at h2
    rw [hr] at h1
    simp only [hb, if_false]
    simp [ChannelInv, h1]

theorem channelInv_reopen {s : ClientState} (h : ChannelInv s) :
    ChannelInv (reopen s) := by
  unfold reopen
  split
  · exact h
  · dsimp only
    split
    · exact channelInv_onDisconnected (by simpa [ChannelInv] using h)
    · simpa [ChannelInv] using h

theorem channelInv_reopenFire {s : ClientState} (h : ChannelInv s) :
    ChannelInv (reopenFire s) := by
  exact channelInv_openReq (by simpa [ChannelInv] using h) []

theorem channelInv_onUnauthorized {s : ClientState} (h : ChannelInv s) :
    ChannelInv (onUnauthorized s) :=
  channelInv_disconnect (channelInv_emitE h EvtName.unauthorized)

theorem channelInv_onRequestError {s : ClientState} (h : ChannelInv s)
    (status : Option Nat) : ChannelInv (onRequestError s status) := by
  unfold onRequestError
  split
  · exact channelInv_onUnauthorized (channelInv_emitE h EvtName.error)
  · exact channelInv_reopen (channelInv_emitE h EvtName.error)

theorem channelInv_successPre {s : ClientState} (h : ChannelInv s)
    (res : Response) : ChannelInv (successPre s res) := by
  unfold successPre
  refine channelInv_onConnected ?_
  split
  · refine channelInv_emitE (channelInv_onConnected ?_) EvtName.setId
    simpa [ChannelInv] using channelInv_emitE h EvtName.success
  · simpa [ChannelInv] using channelInv_emitE h EvtName.success

theorem channelInv_onRequestSuccess {s : ClientState} (h : ChannelInv s)
    (res : Response) : ChannelInv (onRequestSuccess s res) := by
  unfold onRequestSuccess
  have hp := channelInv_successPre h res
  obtain ⟨⟨_, _, _, g4, g5, g6, _, _, _⟩, _⟩ :=
    foldl_onMessage_frame res.messages (successPre s res)
  refine channelInv_openReq ?_ _
  obtain ⟨p1, p2⟩ := hp
  constructor
  · show (res.messages.foldl onMessage (successPre s res)).inflight = _
    rw [g6, g4, p1]
  · show (res.messages.foldl onMessage (successPre s res)).loading = _
    rw [g5, g4, p2]

theorem channelInv_connect {s : ClientState} (h : ChannelInv s) :
    ChannelInv (connect s) := by
  unfold connect
  split
  · exact h
  · exact channelInv_openReq (by simpa [ChannelInv] using h) []

theorem channelInv_send {s : ClientState} (h : ChannelInv s) (uidStr : String)
    (opts : SendOptions) (cb : Bool) : ChannelInv (send uidStr s opts cb).1 := by
  unfold send
  split
  · exact h
  · exact channelInv_muxAdd h _

theorem channelInv_onDrain {s : ClientState} (h : ChannelInv s)
    (msgs : List Message) : ChannelInv (onDrain s msgs) :=
  channelInv_openReq (channelInv_abortRequest h) msgs

theorem channelInv_step {s : ClientState} (h : ChannelInv s) (e : ClientEvt) :
    ChannelInv (step s e) := by
  cases e with
  | connect => exact channelInv_connect h
  | disconnect => exact channelInv_disconnect h
  | send uidStr opts cb => exact channelInv_send h uidStr opts cb
  | drain msgs => exact channelInv_onDrain h msgs
  | success res =>
    show ChannelInv (match s.request with
      | some _ => onRequestSuccess (onRequestClose s) res
      | none => s)
    cases s.request
    · exact h
    · exact channelInv_onRequestSuccess (channelInv_onRequestClose h) res
  | failure status =>
    show ChannelInv (match s.request with
      | some _ => onRequestError (muxAdd (onRequestClose s) s.pending) status
      | none => s)
    cases s.request
    · exact h
    · exact channelInv_onRequestError
        (channelInv_muxAdd (channelInv_onRequestClose h) s.pending) status
  | reopenFire =>
    show ChannelInv (if s.reopenTimers = [] then s else reopenFire s)
    split
    · exact h
    · exact channelInv_reopenFire h

theorem channelInv_run {s : ClientState} (h : ChannelInv s)
    (es : List ClientEvt) : ChannelInv (run s es) := by
  unfold run
  induction es generalizing s with
  | nil => exact h
  | cons e es ih => exact ih (channelInv_step h e)

theorem channelInv_initState (optId : Option String) (b : BackoffState) :
    ChannelInv (initState optId b) := by
  constructor <;> rfl

theorem onDisconnected_frame (s : ClientState) :
    (onDisconnected s).disabled = s.disabled ∧
    (onDisconnected s).reopening = s.reopening ∧
    (onDisconnected s).reopenTimers = s.reopenTimers ∧
    (onDisconnected s).request = s.request ∧
    (onDisconnected s).loading = s.loading ∧
    (onDisconnected s).backoff = s.backoff ∧
    ∃ t, (onDisconnected s).events = s.events ++ t ∧
      ∀ e ∈ t, e = EvtName.disconnected := by
  unfold onDisconnected emitE
  split
  · exact ⟨rfl, rfl, rfl, rfl, rfl, rfl, [], by simp, by simp⟩
  · exact ⟨rfl, rfl, rfl, rfl, rfl, rfl, [EvtName.disconnected], by simp, by simp⟩

theorem emitE_backoff (s : ClientState) (e : EvtName) :
    (emitE s e).backoff = s.backoff := rfl

theorem onConnected_backoff (s : ClientState) :
    (onConnected s).backoff = s.backoff :=
  (onConnected_frame s).1

theorem successPre_backoff (s : ClientState) (res : Response) :
    (successPre s res).backoff = s.backoff.reset := by
  unfold successPre
  dsimp only
  split <;> simp [onConnected_backoff, emitE_backoff]

/-!
## Claim theorems
-/

/-- C1: when the controller is disabled or a request is already loading,
the internal `open(messages)` pushes the given messages back into the
Multiplexer unchanged and issues no RequestChannel — the call is exactly
`multiplexer.add(messages)`, leaving `loading`, the request handle and the
number of open channels untouched, so no message handed to `open` is
dropped. -/
theorem open_requeues_when_blocked (s : ClientState) (msgs : List Message)
    (h : s.disabled = true ∨ s.loading = true) :
    openReq s msgs = muxAdd s msgs ∧
    (openReq s msgs).mux = s.mux ++ msgs ∧
    (openReq s msgs).loading = s.loading ∧
    (openReq s msgs).request = s.request ∧
    (openReq s msgs).inflight = s.inflight := by
  have hb : (s.disabled || s.loading) = true := by
    rcases h with h | h <;> simp [h]
  unfold openReq muxAdd
  simp [hb]

/-- Witness for C1: a freshly constructed (disabled) client re-enqueues a
message handed to `open`. -/
theorem open_requeues_when_blocked_witness :
    openReq sampleState [ackReply "m1"] = muxAdd sampleState [ackReply "m1"] ∧
    (openReq sampleState [ackReply "m1"]).mux = sampleState.mux ++ [ackReply "m1"] ∧
    (openReq sampleState [ackReply "m1"]).loading = sampleState.loading ∧
    (openReq sampleState [ackReply "m1"]).request = sampleState.request ∧
    (openReq sampleState [ackReply "m1"]).inflight = sampleState.inflight :=
  open_requeues_when_blocked sampleState [ackReply "m1"] (Or.inl rfl)

/-- C2: at most one RequestChannel is in flight at any time: from a
freshly constructed client, after any sequence of connect / disconnect /
send / drain / response / drain / reopen-timer events, the number of open
RequestChannels is at most one; moreover `loading` holds exactly while the
request handle is present, and the open-channel count is exactly that
handle count. -/
theorem run_at_most_one_request (optId : Option String) (b : BackoffState)
    (es : List ClientEvt) :
    (run (initState optId b) es).inflight ≤ 1 ∧
    (run (initState optId b) es).loading
      = (run (initState optId b) es).request.isSome ∧
    (run (initState optId b) es).inflight
      = (if (run (initState optId b) es).request.isSome then 1 else 0) := by
  obtain ⟨h1, h2⟩ := channelInv_run (channelInv_initState optId b) es
  refine ⟨?_, h2, h1⟩
  rw [h1]
  split <;> omega

/-- C3: exactly one of the two outcomes of a registered AckWaiter fires:
the first occurrence (a matching inbound ack, or the timeout) invokes the
callback — with no error for an ack, with the delivery-timeout error for
the timeout — and every later occurrence of either kind is a no-op, so the
callback never fires twice and a late ack after the timeout does
nothing. -/
theorem waiter_exactly_once (es : List AckEvt) :
    (waiterRun WaiterState.fresh es).2
      = match es with
        | [] => []
        | e :: _ => [ackOutcomeOf e] := by
  cases es with
  | nil => rfl
  | cons e es =>
    cases e <;>
      simp [waiterRun, waiterStep, WaiterState.fresh, waiterRun_dead, ackOutcomeOf]

/-- C10: an inbound `data` message whose `data` field is absent or falsy
emits only the generic `message` event (in particular no `data` event) and
still enqueues the synthetic ack for its id into the Multiplexer. -/
theorem onMessage_falsy_data (s : ClientState) (m : Message)
    (ht : m.type = "data") (hd : truthy m.data = false) :
    (onMessage s m).events = s.events ++ [EvtName.message] ∧
    (onMessage s m).mux = s.mux ++ [ackReply m.id] := by
  unfold onMessage emitE muxAdd
  simp [ht, hd]

/-- Witness for C10: a `data` message with no payload at all. -/
theorem onMessage_falsy_data_witness :
    (onMessage sampleState { id := "m7", type := "data" }).events
      = sampleState.events ++ [EvtName.message] ∧
    (onMessage sampleState { id := "m7", type := "data" }).mux
      = sampleState.mux ++ [ackReply "m7"] :=
  onMessage_falsy_data sampleState { id := "m7", type := "data" } rfl rfl

/-- C5: `onRequestError` classifies transport failures. A status-401 error
emits `unauthorized` (right after the generic `error`) and performs
`disconnect()`: the controller ends disabled with no request handle, no
reopen/backoff timer is scheduled (`reopenTimers` and `reopening` are
untouched), and `disconnected` follows exactly when the session was
connected. Any other failure emits `error` and enters `reopen` instead:
`reopening` is set and, when no reopen was already pending, a backoff
timer with the current backoff delay is scheduled. -/
theorem onRequestError_classifies (s : ClientState) (status : Option Nat) :
    (status = some 401 →
      (onRequestError s status).disabled = true ∧
      (onRequestError s status).request = none ∧
      (onRequestError s status).reopenTimers = s.reopenTimers ∧
      (onRequestError s status).reopening = s.reopening ∧
      (s.connected = true →
        (onRequestError s status).events
          = s.events ++ [EvtName.error, EvtName.unauthorized, EvtName.disconnected]) ∧
      (s.connected = false →
        (onRequestError s status).events
          = s.events ++ [EvtName.error, EvtName.unauthorized]))
    ∧ (status ≠ some 401 →
      (onRequestError s status).reopening = true ∧
      (onRequestError s status).disabled = s.disabled ∧
      (∃ t, (onRequestError s status).events = s.events ++ EvtName.error :: t ∧
        EvtName.unauthorized ∉ t) ∧
      (s.reopening = false →
        (onRequestError s status).reopenTimers
          = s.reopenTimers ++ [s.backoff.durationVal])) := by
  constructor
  · intro h401
    subst h401
    unfold onRequestError onUnauthorized disconnect abortRequest onRequestClose
      onDisconnected emitE
    cases hr : s.request <;> cases hc : s.connected <;> simp_all
  · intro hne
    unfold onRequestError
    rw [if_neg hne]
    unfold reopen emitE
    by_cases hro : s.reopening = true
    · rw [if_pos (by simpa using hro)]
      refine ⟨hro, rfl, ⟨[], by simp, by simp⟩, ?_⟩
      intro h
      rw [h] at hro
      exact absurd hro (by simp)
    · rw [if_neg (by simpa using hro)]
      dsimp only
      split
      · obtain ⟨d1, d2, d3, _, _, _, t, ht, hall⟩ := onDisconnected_frame _
        refine ⟨by rw [d2], by rw [d1], ⟨t, ?_, ?_⟩, fun _ => by rw [d3]⟩
        · rw [ht]
          simp
        · intro hmem
          have := hall _ hmem
          simp at this
      · exact ⟨rfl, rfl, ⟨[], by simp, by simp⟩, fun _ => rfl⟩

/-- Witness for C5: a connected client with an in-flight request hit by a
401, and the same client hit by a 500. -/
theorem onRequestError_classifies_witness :
    (onRequestError connectedState (some 401)).disabled = true ∧
    (onRequestError connectedState (some 401)).request = none ∧
    (onRequestError connectedState (some 401)).reopenTimers
      = connectedState.reopenTimers ∧
    (onRequestError connectedState (some 401)).events
      = connectedState.events
        ++ [EvtName.error, EvtName.unauthorized, EvtName.disconnected] ∧
    (onRequestError connectedState (some 500)).reopening = true ∧
    (onRequestError connectedState (some 500)).reopenTimers
      = connectedState.reopenTimers ++ [connectedState.backoff.durationVal] := by
  obtain ⟨h1, _⟩ := onRequestError_classifies connectedState (some 401)
  obtain ⟨_, h2⟩ := onRequestError_classifies connectedState (some 500)
  obtain ⟨a1, a2, a3, _, a5, _⟩ := h1 rfl
  obtain ⟨b1, _, _, b4⟩ := h2 (by simp)
  exact ⟨a1, a2, a3, a5 rfl, b1, b4 rfl⟩

/-- C6: a successful response carrying a (truthy) session id assignment
while connectivity was not yet established makes the controller adopt the
id, set `connected`, and emit `connected` strictly before `set:id` (right
after `success`); when connectivity was already established, `connected`
is not re-emitted anywhere during the response handling. -/
theorem success_connected_before_setId (s : ClientState) (res : Response)
    (x : String) (hx : res.setId = some x) (hxe : x ≠ "") :
    (s.connected = false →
      (onRequestSuccess s res).sessionId = some x ∧
      (onRequestSuccess s res).connected = true ∧
      ∃ t, (onRequestSuccess s res).events
          = s.events ++ [EvtName.success, EvtName.connected, EvtName.setId] ++ t) ∧
    (s.connected = true →
      EvtName.connected ∉ (onRequestSuccess s res).events.drop s.events.length) := by
  obtain ⟨⟨c1, c2, _⟩, t, ht, hnc⟩ :=
    foldl_onMessage_frame res.messages (successPre s res)
  obtain ⟨o1, o2, o3, _⟩ := openReq_frame
    { res.messages.foldl onMessage (successPre s res) with
        mux := [], muxRunning := true }
    (res.messages.foldl onMessage (successPre s res)).mux
  have hE : (onRequestSuccess s res).events = (successPre s res).events ++ t :=
    o1.trans ht
  have hC : (onRequestSuccess s res).connected = (successPre s res).connected :=
    o2.trans c1
  have hS : (onRequestSuccess s res).sessionId = (successPre s res).sessionId :=
    o3.trans c2
  constructor
  · intro hc
    have hp : successPre s res
        = { s with
              events := s.events
                ++ [EvtName.success, EvtName.connected, EvtName.setId],
              backoff := s.backoff.reset, sessionId := some x,
              connected := true } := by
      unfold successPre onConnected emitE
      simp [hx, truthy, hxe, hc]
    refine ⟨hS.trans (by rw [hp]), hC.trans (by rw [hp]), t, ?_⟩
    rw [hE, hp]
  · intro hc
    have hp : successPre s res
        = { s with
              events := s.events ++ [EvtName.success, EvtName.setId],
              backoff := s.backoff.reset, sessionId := some x } := by
      unfold successPre onConnected emitE
      simp [hx, truthy, hxe, hc]
    rw [hE, hp]
    intro hmem
    rw [show ({ s with
          events := s.events ++ [EvtName.success, EvtName.setId],
          backoff := s.backoff.reset,
          sessionId := some x } : ClientState).events
        = s.events ++ [EvtName.success, EvtName.setId] from rfl,
      List.append_assoc, List.drop_left] at hmem
    rcases List.mem_append.mp hmem with h | h
    · simp at h
    · exact hnc h

/-- Witness for C6: a fresh client receiving `{set: {id: "X"}}`. -/
theorem success_connected_before_setId_witness :
    (onRequestSuccess sampleState { setId := some "X" }).sessionId = some "X" ∧
    (onRequestSuccess sampleState { setId := some "X" }).connected = true ∧
    ∃ t, (onRequestSuccess sampleState { setId := some "X" }).events
        = sampleState.events
          ++ [EvtName.success, EvtName.connected, EvtName.setId] ++ t := by
  obtain ⟨h1, _⟩ := success_connected_before_setId sampleState
    { setId := some "X" } "X" rfl (by decide)
  exact h1 rfl

/-- C7: every successful response resets the Backoff before anything else
can draw on it: after `onRequestSuccess` the Backoff is exactly the old
configuration with a cleared attempt counter, whose next delay is the
initial configured delay `min ms max`; hence the first failure after the
success schedules its reopen timer with that initial delay rather than a
continuation of the prior streak. -/
theorem success_resets_backoff (s : ClientState) (res : Response) :
    (onRequestSuccess s res).backoff = s.backoff.reset ∧
    (s.backoff.reset).durationVal = min s.backoff.ms s.backoff.maxMs ∧
    ((onRequestSuccess s res).reopening = false →
      (reopen (onRequestSuccess s res)).reopenTimers
        = (onRequestSuccess s res).reopenTimers
          ++ [min s.backoff.ms s.backoff.maxMs]) := by
  obtain ⟨⟨_, _, c3, _⟩, _⟩ :=
    foldl_onMessage_frame res.messages (successPre s res)
  obtain ⟨_, _, _, o4, _⟩ := openReq_frame
    { res.messages.foldl onMessage (successPre s res) with
        mux := [], muxRunning := true }
    (res.messages.foldl onMessage (successPre s res)).mux
  have hB : (onRequestSuccess s res).backoff = s.backoff.reset :=
    (o4.trans c3).trans (successPre_backoff s res)
  have hD : (s.backoff.reset).durationVal = min s.backoff.ms s.backoff.maxMs := by
    simp [BackoffState.durationVal, BackoffState.reset]
  refine ⟨hB, hD, ?_⟩
  intro hro
  unfold reopen
  rw [if_neg (by simp [hro])]
  dsimp only
  split
  · obtain ⟨_, _, d3, _⟩ := onDisconnected_frame
      { onRequestSuccess s res with
          backoff := ((onRequestSuccess s res).backoff.duration).2,
          reopening := true, muxRunning := false,
          reopenTimers := (onRequestSuccess s res).reopenTimers
            ++ [(onRequestSuccess s res).backoff.durationVal] }
    rw [d3]
    show (onRequestSuccess s res).reopenTimers
        ++ [(onRequestSuccess s res).backoff.durationVal] = _
    rw [hB, hD]
  · show (onRequestSuccess s res).reopenTimers
        ++ [(onRequestSuccess s res).backoff.durationVal] = _
    rw [hB, hD]

/-- Witness for C7: a fresh (disabled) client processing an empty
successful response. -/
theorem success_resets_backoff_witness :
    (onRequestSuccess sampleState {}).backoff = sampleState.backoff.reset ∧
    (sampleState.backoff.reset).durationVal
      = min sampleState.backoff.ms sampleState.backoff.maxMs ∧
    (reopen (onRequestSuccess sampleState {})).reopenTimers
      = (onRequestSuccess sampleState {}).reopenTimers
        ++ [min sampleState.backoff.ms sampleState.backoff.maxMs] := by
  obtain ⟨h1, h2, h3⟩ := success_resets_backoff sampleState {}
  exact ⟨h1, h2, h3 rfl⟩

/-- C4 counterexample: the legacy `Client.js` `send` called with an
omitted `type` — which defaults to `'user'`, a directed message — and no
`recipient` skips validation entirely (validation tests
`options.type === 'user'` before the default is applied): the message IS
enqueued and no validation callback is scheduled, the opposite of what the
claim states at this input. -/
theorem legacySend_skips_validation_counterexample :
    legacySend "1" (some "c") (some "u") [] { data := some "x" }
      = ([{ id := "1", type := "user", data := some "x", sender := some "u",
            recipient := none, client := some "c" }], []) := by
  rfl

/-- C4 (amended): the async validation failure holds for the canonical
`send` on every message whose defaulted type is `data` and lacks a truthy
payload (including an omitted type, which is defaulted before validation),
and for the legacy `send` on messages explicitly typed `'user'` lacking a
truthy recipient or data; with an omitted type the legacy `send` skips
validation even though the enqueued message's type defaults to `'user'`.
In each validated case the callback is scheduled asynchronously with the
validation error and nothing is enqueued. -/
theorem send_validation_amended (uidStr : String) (s : ClientState)
    (opts : SendOptions) (cb : Bool) (uidL : String) (cId uId : Option String)
    (mux : List Message) (lopts : SendOptions) :
    (defaultedType opts = "data" → truthy opts.data = false →
      (send uidStr s opts cb).1 = s ∧
      (send uidStr s opts cb).2
        = (if cb then ["Undefined property \"data\""] else [])) ∧
    (lopts.type = some "user" → truthy lopts.recipient = false →
      legacySend uidL cId uId mux lopts = (mux, ["Recipient is undefined."])) ∧
    (lopts.type = some "user" → truthy lopts.recipient = true →
      truthy lopts.data = false →
      legacySend uidL cId uId mux lopts = (mux, ["Data is undefined."])) := by
  refine ⟨fun h1 h2 => ?_, fun h1 h2 => ?_, fun h1 h2 h3 => ?_⟩
  · unfold send sendValidationError
    rw [if_pos (by simp [h1, h2])]
    exact ⟨rfl, rfl⟩
  · unfold legacySend
    rw [if_pos h1, if_pos (by simp [h2])]
  · unfold legacySend
    rw [if_pos h1, if_neg (by simp [h2]), if_pos (by simp [h3])]

/-- Witness for C4 (amended): `send({type:'data'})` with a callback on the
canonical client, and `send({type:'user', data:'d'})` on the legacy
client. -/
theorem send_validation_amended_witness :
    (send "9" sampleState { type := some "data" } true).1 = sampleState ∧
    (send "9" sampleState { type := some "data" } true).2
      = (if true then ["Undefined property \"data\""] else []) ∧
    legacySend "9" none none [] { type := some "user", data := some "d" }
      = ([], ["Recipient is undefined."]) := by
  obtain ⟨h1, h2, _⟩ := send_validation_amended "9" sampleState
    { type := some "data" } true "9" none none []
    { type := some "user", data := some "d" }
  obtain ⟨a1, a2⟩ := h1 rfl rfl
  exact ⟨a1, a2, h2 rfl rfl⟩

/-- C8 counterexample: with an application `data` handler that throws and
an `error` handler that also throws, the exception escapes the guarded
emit (the catch block's own `out.emit('error')` is not itself wrapped),
propagates out of `onMessage`, and the synthetic ack is NOT enqueued —
contradicting both halves of the claim at this input. -/
theorem onMessageG_handler_escape_counterexample :
    onMessageG (fun e => e == EvtName.data || e == EvtName.error) []
      { id := "m1", type := "data", data := some "x" } = Except.error () := by
  rfl

/-- C8 (amended): provided the application's `error` handler does not
itself throw, an exception thrown by a handler during emission is caught
at the emission boundary and re-raised as an `error` event, and never
escapes `onMessage`; in particular, for every non-ack inbound message the
synthetic ack is enqueued into the Multiplexer regardless of handler
failures. -/
theorem onMessageG_ack_enqueued (env : HandlerEnv) (mux : List Message)
    (m : Message) (he : env EvtName.error = false) (hm : m.type ≠ "ack") :
    ∃ t, onMessageG env mux m = Except.ok (mux ++ [ackReply m.id], t) ∧
      (env EvtName.message = true → EvtName.error ∈ t) ∧
      (m.type = "data" → truthy m.data = true → env EvtName.data = true →
        EvtName.error ∈ t) := by
  unfold onMessageG emitG
  by_cases h1 : env EvtName.message = true
  all_goals by_cases h2 : m.type = "data"
  all_goals by_cases h3 : truthy m.data = true
  all_goals by_cases h4 : env EvtName.data = true
  all_goals simp [h1, h2, h3, h4, he, hm]

/-- Witness for C8 (amended): a throwing `data` handler with a well-behaved
`error` handler — the ack is still enqueued and `error` is delivered. -/
theorem onMessageG_ack_enqueued_witness :
    ∃ t, onMessageG (fun e => e == EvtName.data) []
        { id := "m1", type := "data", data := some "x" }
        = Except.ok ([] ++ [ackReply "m1"], t) ∧ EvtName.error ∈ t := by
  obtain ⟨t, h1, _, h3⟩ := onMessageG_ack_enqueued (fun e => e == EvtName.data)
    [] { id := "m1", type := "data", data := some "x" } rfl (by decide)
  exact ⟨t, h1, h3 rfl rfl rfl⟩

/-- C9 counterexample: `send` with options already carrying `id: "custom"`
while the generator yields `"99"` enqueues the message under the
caller-supplied id: the spread `...options` placed after `id: String(uid())`
overrides the fresh id, and `"custom" ≠ "99"`. -/
theorem send_id_override_counterexample :
    (send "99" sampleState
        { id := some "custom", type := some "data", data := some "x" }
        false).1.mux
      = [{ id := "custom", type := "data", data := some "x" }] ∧
    "custom" ≠ "99" := by
  exact ⟨rfl, by decide⟩

/-- C9 (amended): for every `send` call that passes validation and whose
options do not themselves carry an `id` field, the message enqueued into
the Multiplexer is stamped with the freshly generated id; a caller-supplied
`id` field overrides the generated one. -/
theorem send_fresh_id_amended (uidStr : String) (s : ClientState)
    (opts : SendOptions) (cb : Bool) (hid : opts.id = none)
    (hv : sendValidationError opts = none) :
    (send uidStr s opts cb).1.mux = s.mux ++ [mkMessage uidStr opts] ∧
    (mkMessage uidStr opts).id = uidStr := by
  unfold send
  rw [hv]
  exact ⟨rfl, by simp [mkMessage, hid]⟩

/-- Witness for C9 (amended): a valid `data` message without a caller
id. -/
theorem send_fresh_id_amended_witness :
    (send "42" sampleState { type := some "data", data := some "x" } true).1.mux
      = sampleState.mux ++ [mkMessage "42" { type := some "data", data := some "x" }] ∧
    (mkMessage "42" { type := some "data", data := some "x" }).id = "42" :=
  send_fresh_id_amended "42" sampleState
    { type := some "data", data := some "x" } true rfl rfl

end Lpio
